import Mathlib

/-!
Verification of the SalonTime appointment-booking backend's scheduling and
review-aggregation core, as a shallow embedding of the JavaScript handlers
in `bookingController` and `reviewController`.

Times of day are modelled as minute offsets from midnight (the source parses
"HH:MM" strings with `_timeStringToMinutes` and compares them; both string
comparison on zero-padded "HH:MM" and numeric comparison on minutes agree).
Dates are modelled as day indices.  Database ids (uuids in the source) are
modelled as naturals.  Store reads and writes are assumed to succeed; the
embedding models the handler's decision logic and the resulting store state.
-/

namespace SalonTime

/-- Booking lifecycle statuses, exactly the source's `validStatuses` list
`['pending', 'confirmed', 'completed', 'cancelled', 'no_show']`. -/
inductive Status where
  | pending
  | confirmed
  | completed
  | cancelled
  | noShow
deriving DecidableEq, Repr

/-- Machine-readable error codes thrown by the handlers (via `AppError`). -/
inductive ErrCode where
  | MISSING_BOOKING_INFO
  | SERVICE_NOT_FOUND
  | SALON_NOT_FOUND
  | TIME_SLOT_CONFLICT
  | BOOKING_NOT_FOUND
  | INSUFFICIENT_PERMISSIONS
  | INVALID_STATUS
  | CLIENT_CAN_ONLY_CANCEL
  | BOOKING_UPDATE_FAILED
  | BOOKING_ALREADY_CANCELLED
  | BOOKING_CANCEL_FAILED
  | RESCHEDULE_FAILED
  | MISSING_REQUIRED_FIELDS
  | INVALID_RATING
  | BOOKING_NOT_COMPLETED
  | REVIEW_ALREADY_EXISTS
  | INVALID_SALON
  | NO_COMPLETED_BOOKINGS
  | REVIEW_NOT_FOUND
deriving DecidableEq, Repr

/-- A `{start_time, end_time}` pair, as selected from the `bookings` table and
as returned in the `available_slots` list. -/
structure Interval where
  start_time : Nat
  end_time : Nat
deriving DecidableEq, Repr

/-- A row of the `services` table (fields the booking handlers read). -/
structure Service where
  id : Nat
  salon_id : Nat
  duration : Nat
deriving DecidableEq, Repr

/-- A row of the `salons` table (fields the booking handlers read). -/
structure Salon where
  id : Nat
  owner_id : Nat
deriving DecidableEq, Repr

/-- A row of the `bookings` table (fields the handlers read and write;
notes fields are elided). -/
structure Booking where
  id : Nat
  client_id : Nat
  salon_id : Nat
  service_id : Nat
  staff_id : Option Nat
  appointment_date : Nat
  start_time : Nat
  end_time : Nat
  status : Status
deriving DecidableEq, Repr

/-! ## AvailabilityCalculator: `_calculateAvailableSlots` -/

/-- The per-booking overlap test inside `_calculateAvailableSlots`:
`currentTime < bookingEnd && currentTime + serviceDuration > bookingStart`. -/
def slotOverlapsBooking (currentTime serviceDuration : Nat) (b : Interval) : Bool :=
  decide (currentTime < b.end_time) && decide (currentTime + serviceDuration > b.start_time)

/-- `existingBookings.some(...)` in the slot loop. -/
def slotHasConflict (currentTime serviceDuration : Nat) (existing : List Interval) : Bool :=
  existing.any (slotOverlapsBooking currentTime serviceDuration)

/-- The `while (currentTime + serviceDuration <= endTime)` loop of
`_calculateAvailableSlots`, stepping by the hard-coded `slotInterval = 15`.
The loop is embedded structurally with a fuel argument; since every guarded
iteration has `currentTime <= endTime` and advances `currentTime` by 15, a
fuel of `endTime + 1 - currentTime` can never run out before the guard
fails, so the fuel-0 branch is unreachable from `slotsFrom`. -/
def slotStep (endTime serviceDuration : Nat) (existing : List Interval) :
    Nat → Nat → List Interval
  | _, 0 => []
  | currentTime, fuel + 1 =>
    if currentTime + serviceDuration ≤ endTime then
      if slotHasConflict currentTime serviceDuration existing then
        slotStep endTime serviceDuration existing (currentTime + 15) fuel
      else
        ⟨currentTime, currentTime + serviceDuration⟩ ::
          slotStep endTime serviceDuration existing (currentTime + 15) fuel
    else
      []

/-- The slot walk from a given start minute. -/
def slotsFrom (endTime serviceDuration : Nat) (existing : List Interval)
    (currentTime : Nat) : List Interval :=
  slotStep endTime serviceDuration existing currentTime (endTime + 1 - currentTime)

/-- `_calculateAvailableSlots(openTime, closeTime, serviceDuration,
existingBookings, appointmentDate)`.  The same-day branch is modelled by
`sameDayNow`: `some nowMinutes` when `appointmentDate` equals today, `none`
otherwise (including `appointmentDate = null`).  In the same-day branch the
source computes `minBookingTime = nowMinutes - 5`, rounds it up to the next
15-minute boundary with `Math.ceil`, raises the walk's start to at least
that, and returns `[]` when the start reaches the closing time.  (When
`nowMinutes < 5` the JavaScript value is negative and the `Math.max` with
the opening time discards it; natural-number truncation to 0 gives the same
result.) -/
def calculateAvailableSlots (openTime closeTime serviceDuration : Nat)
    (existingBookings : List Interval) (sameDayNow : Option Nat) : List Interval :=
  match sameDayNow with
  | none => slotsFrom closeTime serviceDuration existingBookings openTime
  | some nowMinutes =>
    let minBookingTime := nowMinutes - 5
    let roundedMinBookingTime := ((minBookingTime + 14) / 15) * 15
    let currentTime := max openTime roundedMinBookingTime
    if currentTime ≥ closeTime then []
    else slotsFrom closeTime serviceDuration existingBookings currentTime

/-! ## ConflictDetector and `createBooking` -/

/-- The half-open interval overlap test, as documented at the conflict query
in `createBooking`: two slots `[aStart, aEnd)` and `[bStart, bEnd)` overlap
iff `aStart < bEnd && bStart < aEnd`. -/
def halfOpenOverlap (aStart aEnd bStart bEnd : Nat) : Bool :=
  decide (aStart < bEnd) && decide (bStart < aEnd)

/-- The row filter of the conflict query in `createBooking`:
`eq salon_id, eq appointment_date, neq status cancelled,
lt start_time endTimeStr, gt end_time start_time`.  Note that the query has
no `staff_id` filter. -/
def createConflictWith (salonId appointmentDate startTime endTime : Nat)
    (b : Booking) : Bool :=
  (b.salon_id == salonId) && (b.appointment_date == appointmentDate) &&
  !(b.status == Status.cancelled) &&
  halfOpenOverlap startTime endTime b.start_time b.end_time

/-- The request body of `createBooking`. -/
structure CreateRequest where
  salon_id : Nat
  service_id : Nat
  staff_id : Option Nat
  appointment_date : Nat
  start_time : Nat
deriving DecidableEq, Repr

/-- `createBooking`: look up the service, check it belongs to the salon,
look up the salon, compute `end_time = start_time + service.duration`, run
the conflict query over the whole salon's non-cancelled bookings for the
date, and insert the booking with status `'confirmed'` (auto-approve).
Payment/email side effects are elided. -/
def createBooking (services : List Service) (salons : List Salon)
    (bookings : List Booking) (clientId newId : Nat) (req : CreateRequest) :
    Except ErrCode Booking :=
  match services.find? (fun s => s.id == req.service_id) with
  | none => .error .SERVICE_NOT_FOUND
  | some service =>
    if service.salon_id != req.salon_id then .error .SERVICE_NOT_FOUND
    else
      match salons.find? (fun s => s.id == req.salon_id) with
      | none => .error .SALON_NOT_FOUND
      | some _ =>
        let endTime := req.start_time + service.duration
        if bookings.any
            (createConflictWith req.salon_id req.appointment_date req.start_time endTime) then
          .error .TIME_SLOT_CONFLICT
        else
          .ok { id := newId, client_id := clientId, salon_id := req.salon_id,
                service_id := req.service_id, staff_id := req.staff_id,
                appointment_date := req.appointment_date,
                start_time := req.start_time, end_time := endTime,
                status := .confirmed }

/-- The row filter the `getAvailableSlots` handler uses to fetch the booked
set: `eq salon_id, eq appointment_date, neq status cancelled`, and
additionally `eq staff_id` when a staff id is supplied in the query. -/
def availabilityBookedSet (bookings : List Booking) (salonId appointmentDate : Nat)
    (staffId : Option Nat) : List Interval :=
  (bookings.filter (fun b =>
      (b.salon_id == salonId) && (b.appointment_date == appointmentDate) &&
      !(b.status == Status.cancelled) &&
      (match staffId with
       | none => true
       | some sid => b.staff_id == some sid))).map
    (fun b => ⟨b.start_time, b.end_time⟩)

/-! ## `rescheduleBooking` -/

/-- The row filter of the conflict query in `rescheduleBooking`.  The query
chains two `.or` groups, which PostgREST conjoins with the other filters:
`eq salon_id AND eq appointment_date AND neq status cancelled AND
neq id bookingId AND (start_time <= newStart OR end_time >= newEnd) AND
(start_time < newEnd OR end_time > newStart)`. -/
def rescheduleConflictWith (salonId appointmentDate bookingId startTime endTime : Nat)
    (b : Booking) : Bool :=
  (b.salon_id == salonId) && (b.appointment_date == appointmentDate) &&
  !(b.status == Status.cancelled) && !(b.id == bookingId) &&
  (decide (b.start_time ≤ startTime) || decide (b.end_time ≥ endTime)) &&
  (decide (b.start_time < endTime) || decide (b.end_time > startTime))

/-- `rescheduleBooking`: find the booking (joined with its service row),
require the caller to be the booking's client, require status pending or
confirmed, compute the new end time from the service's current `duration`,
run the reschedule conflict query excluding the booking itself, and update
the booking in place with status reset to `'pending'`.  A missing joined
service row makes the handler fail (`RESCHEDULE_FAILED`). -/
def rescheduleBooking (services : List Service) (bookings : List Booking)
    (userId bookingId newDate newStart : Nat) : Except ErrCode Booking :=
  match bookings.find? (fun b => b.id == bookingId) with
  | none => .error .BOOKING_NOT_FOUND
  | some booking =>
    if booking.client_id != userId then .error .INSUFFICIENT_PERMISSIONS
    else if !(booking.status == Status.pending || booking.status == Status.confirmed) then
      .error .INVALID_STATUS
    else
      match services.find? (fun s => s.id == booking.service_id) with
      | none => .error .RESCHEDULE_FAILED
      | some service =>
        let endTime := newStart + service.duration
        if bookings.any
            (rescheduleConflictWith booking.salon_id newDate bookingId newStart endTime) then
          .error .TIME_SLOT_CONFLICT
        else
          .ok { booking with
                appointment_date := newDate
                start_time := newStart
                end_time := endTime
                status := .pending }

/-! ## `updateBookingStatus` and `cancelBookingAsSalonOwner` -/

/-- A freed-slot tuple `(salon_id, service_id, appointment_date, start_time)`
passed to `waitlistController.processWaitlistForCancelledBooking`. -/
abbrev FreedSlot : Type := Nat × Nat × Nat × Nat

/-- The outcome of a status-changing handler call: the handler's response,
the `bookings` store after the call, and the list of waitlist-dispatcher
invocations it performed (in order). -/
structure UpdateOutcome where
  result : Except ErrCode Booking
  bookings : List Booking
  dispatches : List FreedSlot
deriving Repr

/-- The store update `update({status}).eq('id', bookingId)`. -/
def setStatus (bookings : List Booking) (bookingId : Nat) (newStatus : Status) :
    List Booking :=
  bookings.map (fun b => if b.id == bookingId then { b with status := newStatus } else b)

/-- `updateBookingStatus`: find the booking (joined with its salon row),
compute `isOwner`/`isClient`, query staff membership only when neither
holds, reject outsiders, reject a pure client targeting anything other than
`'cancelled'`, then unconditionally write the new status (the handler never
inspects the booking's current status), and when the new status is
`'cancelled'` invoke the waitlist dispatcher once with the booking's freed
slot.  The target status is modelled as `Status`, which is exactly the
source's `validStatuses` list, so the `INVALID_STATUS` guard is always
passed.  `staffPairs` lists the `(salon_id, user_id)` rows of the `staff`
table. -/
def updateBookingStatus (salons : List Salon) (staffPairs : List (Nat × Nat))
    (bookings : List Booking) (userId bookingId : Nat) (newStatus : Status) :
    UpdateOutcome :=
  match bookings.find? (fun b => b.id == bookingId) with
  | none => ⟨.error .BOOKING_NOT_FOUND, bookings, []⟩
  | some booking =>
    match salons.find? (fun s => s.id == booking.salon_id) with
    | none => ⟨.error .BOOKING_UPDATE_FAILED, bookings, []⟩
    | some salon =>
      let isOwner := salon.owner_id == userId
      let isClient := booking.client_id == userId
      let isStaff :=
        if !isOwner && !isClient then
          staffPairs.any (fun p => (p.1 == booking.salon_id) && (p.2 == userId))
        else false
      if !isOwner && !isClient && !isStaff then
        ⟨.error .INSUFFICIENT_PERMISSIONS, bookings, []⟩
      else if isClient && !isOwner && !isStaff && !(newStatus == Status.cancelled) then
        ⟨.error .CLIENT_CAN_ONLY_CANCEL, bookings, []⟩
      else
        ⟨.ok { booking with status := newStatus },
         setStatus bookings bookingId newStatus,
         if newStatus == Status.cancelled then
           [(booking.salon_id, booking.service_id, booking.appointment_date,
             booking.start_time)]
         else []⟩

/-- `cancelBookingAsSalonOwner`: find the booking (joined with its salon
row), require the caller to be the salon's owner, reject a booking that is
already `'cancelled'`, write status `'cancelled'`, and invoke the waitlist
dispatcher once with the booking's freed slot. -/
def cancelBookingAsSalonOwner (salons : List Salon) (bookings : List Booking)
    (userId bookingId : Nat) : UpdateOutcome :=
  match bookings.find? (fun b => b.id == bookingId) with
  | none => ⟨.error .BOOKING_NOT_FOUND, bookings, []⟩
  | some booking =>
    match salons.find? (fun s => s.id == booking.salon_id) with
    | none => ⟨.error .BOOKING_CANCEL_FAILED, bookings, []⟩
    | some salon =>
      if !(salon.owner_id == userId) then
        ⟨.error .INSUFFICIENT_PERMISSIONS, bookings, []⟩
      else if booking.status == Status.cancelled then
        ⟨.error .BOOKING_ALREADY_CANCELLED, bookings, []⟩
      else
        ⟨.ok { booking with status := .cancelled },
         setStatus bookings bookingId .cancelled,
         [(booking.salon_id, booking.service_id, booking.appointment_date,
           booking.start_time)]⟩

/-! ## AggregateRatingProjector: `reviewController` -/

/-- A row of the `reviews` table (fields the handlers read and write;
the comment field is elided). -/
structure Review where
  id : Nat
  client_id : Nat
  salon_id : Nat
  booking_id : Option Nat
  rating : Nat
  is_visible : Bool
deriving DecidableEq, Repr

/-- The rating-summary fields of a `salons` row. -/
structure SalonRecord where
  id : Nat
  rating_average : ℚ
  rating_count : Nat
deriving DecidableEq, Repr

/-- The review store together with the salons' denormalized summaries. -/
structure ReviewStoreState where
  reviews : List Review
  salons : List SalonRecord
deriving DecidableEq, Repr

/-- `parseFloat(x.toFixed(2))`: rounding to two decimal places.  The source
rounds an IEEE double; since all the values rounded here are non-negative
averages of small integers, this is modelled exactly on `ℚ` as
round-half-up at the second decimal. -/
def round2 (q : ℚ) : ℚ := (round (q * 100) : ℤ) / 100

/-- The ratings of the visible reviews of a salon, as fetched by
`_updateSalonRating`'s query (`eq salon_id, eq is_visible true`). -/
def visibleRatings (reviews : List Review) (salonId : Nat) : List Nat :=
  (reviews.filter (fun r => (r.salon_id == salonId) && r.is_visible)).map Review.rating

/-- `_updateSalonRating`: fetch the salon's visible reviews, compute
`averageRating` (0 when there are none, else `sum / count`) and
`reviewCount`, and write `rating_average = parseFloat(avg.toFixed(2))` and
`rating_count` to the salon row. -/
def updateSalonRating (st : ReviewStoreState) (salonId : Nat) : ReviewStoreState :=
  let ratings := visibleRatings st.reviews salonId
  let averageRating : ℚ :=
    if ratings.length = 0 then 0 else (ratings.sum : ℚ) / (ratings.length : ℚ)
  { st with
    salons := st.salons.map (fun s =>
      if s.id == salonId then
        { s with rating_average := round2 averageRating, rating_count := ratings.length }
      else s) }

/-- A booking's start instant, `new Date(appointment_date + 'T' + start_time)`,
on a single linear timeline in minutes. -/
def bookingDateTime (b : Booking) : Nat := b.appointment_date * 1440 + b.start_time

/-- `createReview`: validate the rating (a falsy rating of 0 hits the
missing-fields check, out-of-range hits `INVALID_RATING`); when a booking id
is supplied, require the booking to belong to the caller, to be completed or
in the past, to have no review yet, and to belong to the salon; when no
booking id is supplied, require some completed booking of the caller at the
salon.  Then insert the review with `is_visible = true` and run
`_updateSalonRating` for the salon.  Email side effects are elided. -/
def createReview (bookings : List Booking) (st : ReviewStoreState)
    (clientId newId salonId : Nat) (bookingId : Option Nat) (rating : Nat)
    (now : Nat) : Except ErrCode ReviewStoreState :=
  if rating == 0 then .error .MISSING_REQUIRED_FIELDS
  else if decide (rating < 1) || decide (rating > 5) then .error .INVALID_RATING
  else
    let inserted : ReviewStoreState :=
      { st with
        reviews := st.reviews ++
          [{ id := newId, client_id := clientId, salon_id := salonId,
             booking_id := bookingId, rating := rating, is_visible := true }] }
    match bookingId with
    | some bid =>
      match bookings.find? (fun b => (b.id == bid) && (b.client_id == clientId)) with
      | none => .error .BOOKING_NOT_FOUND
      | some booking =>
        if decide (bookingDateTime booking > now) && !(booking.status == Status.completed) then
          .error .BOOKING_NOT_COMPLETED
        else if (st.reviews.find? (fun r => r.booking_id == some bid)).isSome then
          .error .REVIEW_ALREADY_EXISTS
        else if booking.salon_id != salonId then
          .error .INVALID_SALON
        else
          .ok (updateSalonRating inserted salonId)
    | none =>
      if bookings.any (fun b =>
          (b.salon_id == salonId) && (b.client_id == clientId) &&
          (b.status == Status.completed)) then
        .ok (updateSalonRating inserted salonId)
      else .error .NO_COMPLETED_BOOKINGS

/-- `updateReview`: require the review to belong to the caller, validate the
new rating when one is supplied, write the new rating, and run
`_updateSalonRating` for the review's salon.  Comment-only updates carry
`none` for the rating. -/
def updateReview (st : ReviewStoreState) (clientId reviewId : Nat)
    (rating : Option Nat) : Except ErrCode ReviewStoreState :=
  match st.reviews.find? (fun r => (r.id == reviewId) && (r.client_id == clientId)) with
  | none => .error .REVIEW_NOT_FOUND
  | some existing =>
    match rating with
    | some rVal =>
      if decide (rVal < 1) || decide (rVal > 5) then .error .INVALID_RATING
      else
        let updated : ReviewStoreState :=
          { st with
            reviews := st.reviews.map (fun r =>
              if r.id == reviewId then { r with rating := rVal } else r) }
        .ok (updateSalonRating updated existing.salon_id)
    | none => .ok (updateSalonRating st existing.salon_id)

/-- `deleteReview`: require the review to belong to the caller, soft-delete
it by setting `is_visible = false`, and run `_updateSalonRating` for the
review's salon. -/
def deleteReview (st : ReviewStoreState) (clientId reviewId : Nat) :
    Except ErrCode ReviewStoreState :=
  match st.reviews.find? (fun r => (r.id == reviewId) && (r.client_id == clientId)) with
  | none => .error .REVIEW_NOT_FOUND
  | some existing =>
    let updated : ReviewStoreState :=
      { st with
        reviews := st.reviews.map (fun r =>
          if r.id == reviewId then { r with is_visible := false } else r) }
    .ok (updateSalonRating updated existing.salon_id)

/-- The rating summary the specification prescribes, written from the spec's
words: `average = round(sum(rating for visible reviews)/count, 2)` and
`count = count(visible reviews)`, with average 0 and count 0 when no
visible reviews exist. -/
def specRatingSummary (reviews : List Review) (salonId : Nat) : ℚ × Nat :=
  let visible := reviews.filter (fun r => (r.salon_id == salonId) && r.is_visible)
  let count := visible.length
  (if count = 0 then 0
   else round2 (((visible.map Review.rating).sum : ℚ) / (count : ℚ)), count)

/-- The stored summary of a salon agrees with the spec's full recompute over
the current review set. -/
def storedSummaryMatches (st : ReviewStoreState) (salonId : Nat) : Prop :=
  ∀ s ∈ st.salons, s.id = salonId →
    (s.rating_average, s.rating_count) = specRatingSummary st.reviews salonId

/-! ## Helper lemmas -/

/-- Every slot the walk emits has `end_time = start_time + serviceDuration`. -/
theorem mem_slotStep_end_eq (endTime serviceDuration : Nat) (existing : List Interval) :
    ∀ (fuel currentTime : Nat) (iv : Interval),
      iv ∈ slotStep endTime serviceDuration existing currentTime fuel →
      iv.end_time = iv.start_time + serviceDuration := by
  intro fuel
  induction fuel with
  | zero => intro cur iv h; simp [slotStep] at h
  | succ n ih =>
    intro cur iv h
    simp only [slotStep] at h
    split at h
    · split at h
      · exact ih _ _ h
      · rcases List.mem_cons.mp h with hiv | h2
        · subst hiv; rfl
        · exact ih _ _ h2
    · simp at h

/-- The creation-time conflict query fires exactly on a non-cancelled
half-open-overlapping booking of the same salon and date. -/
theorem any_createConflictWith_iff (bookings : List Booking)
    (salonId appointmentDate startTime endTime : Nat) :
    (bookings.any (createConflictWith salonId appointmentDate startTime endTime) = true) ↔
      ∃ b ∈ bookings, b.salon_id = salonId ∧ b.appointment_date = appointmentDate ∧
        b.status ≠ Status.cancelled ∧ b.start_time < endTime ∧ b.end_time > startTime := by
  simp only [List.any_eq_true, createConflictWith, halfOpenOverlap, Bool.and_eq_true,
    beq_iff_eq, Bool.not_eq_true', beq_eq_false_iff_ne, decide_eq_true_eq, ne_eq,
    gt_iff_lt]
  constructor
  · rintro ⟨b, hb, ⟨⟨⟨hs, hd⟩, hc⟩, h1, h2⟩⟩
    exact ⟨b, hb, hs, hd, hc, h2, h1⟩
  · rintro ⟨b, hb, hs, hd, hc, h2, h1⟩
    exact ⟨b, hb, ⟨⟨⟨hs, hd⟩, hc⟩, h1, h2⟩⟩

/-- Characterization of a successful `createBooking`: the inserted row. -/
theorem createBooking_ok_spec (services : List Service) (salons : List Salon)
    (bookings : List Booking) (clientId newId : Nat) (req : CreateRequest)
    (service : Service) (b : Booking)
    (hserv : services.find? (fun s => s.id == req.service_id) = some service)
    (hok : createBooking services salons bookings clientId newId req = .ok b) :
    b = { id := newId, client_id := clientId, salon_id := req.salon_id,
          service_id := req.service_id, staff_id := req.staff_id,
          appointment_date := req.appointment_date, start_time := req.start_time,
          end_time := req.start_time + service.duration, status := .confirmed } := by
  simp only [createBooking, hserv] at hok
  split at hok
  · simp at hok
  · split at hok
    · simp at hok
    · split at hok
      · simp at hok
      · injection hok with h2
        exact h2.symm

/-- Characterization of a successful `rescheduleBooking`: the updated row,
whose interval is recomputed from the service's current duration. -/
theorem rescheduleBooking_ok_spec (services : List Service) (bookings : List Booking)
    (userId bookingId newDate newStart : Nat) (booking : Booking) (service : Service)
    (b : Booking)
    (hb : bookings.find? (fun bk => bk.id == bookingId) = some booking)
    (hserv : services.find? (fun s => s.id == booking.service_id) = some service)
    (hok : rescheduleBooking services bookings userId bookingId newDate newStart = .ok b) :
    b = { booking with
          appointment_date := newDate
          start_time := newStart
          end_time := newStart + service.duration
          status := .pending } := by
  simp only [rescheduleBooking, hb, hserv] at hok
  split at hok
  · simp at hok
  · split at hok
    · simp at hok
    · split at hok
      · simp at hok
      · injection hok with h2
        exact h2.symm

/-- An owner-initiated `updateBookingStatus` call takes the success branch
whatever the booking's current status is: the handler never inspects the
current status. -/
theorem updateBookingStatus_owner_spec (salons : List Salon)
    (staffPairs : List (Nat × Nat)) (bookings : List Booking)
    (userId bookingId : Nat) (newStatus : Status) (booking : Booking) (salon : Salon)
    (hb : bookings.find? (fun b => b.id == bookingId) = some booking)
    (hs : salons.find? (fun s => s.id == booking.salon_id) = some salon)
    (howner : salon.owner_id = userId) :
    updateBookingStatus salons staffPairs bookings userId bookingId newStatus =
      ⟨.ok { booking with status := newStatus },
       setStatus bookings bookingId newStatus,
       if newStatus == Status.cancelled then
         [(booking.salon_id, booking.service_id, booking.appointment_date,
           booking.start_time)]
       else []⟩ := by
  simp [updateBookingStatus, hb, hs, howner]

/-- `updateBookingStatus` never dispatches the waitlist unless the target
status is `'cancelled'`. -/
theorem updateBookingStatus_dispatches_nil (salons : List Salon)
    (staffPairs : List (Nat × Nat)) (bookings : List Booking)
    (userId bookingId : Nat) (newStatus : Status)
    (h : newStatus ≠ Status.cancelled) :
    (updateBookingStatus salons staffPairs bookings userId bookingId newStatus).dispatches
      = [] := by
  have hbeq : (newStatus == Status.cancelled) = false := by
    simp only [beq_eq_false_iff_ne, ne_eq]
    exact h
  unfold updateBookingStatus
  split
  · rfl
  · split
    · rfl
    · simp only [hbeq, Bool.false_eq_true, if_false]
      repeat' first | rfl | split

/-- `round2` of zero is zero. -/
theorem round2_zero : round2 0 = 0 := by
  norm_num [round2]

/-- After `_updateSalonRating` runs for a salon, that salon's stored summary
is the spec's full recompute over the (unchanged) review set. -/
theorem updateSalonRating_matches (st : ReviewStoreState) (salonId : Nat) :
    storedSummaryMatches (updateSalonRating st salonId) salonId := by
  have hrev : (updateSalonRating st salonId).reviews = st.reviews := rfl
  intro s hs hid
  rw [hrev]
  unfold updateSalonRating at hs
  simp only [List.mem_map] at hs
  obtain ⟨s0, hs0, hfun⟩ := hs
  by_cases h : s0.id = salonId
  · rw [← hfun]
    simp only [h, beq_self_eq_true, if_true]
    unfold specRatingSummary visibleRatings
    simp only [List.length_map]
    by_cases hlen : (st.reviews.filter
        (fun r => (r.salon_id == salonId) && r.is_visible)).length = 0
    · rw [if_pos hlen, if_pos hlen, round2_zero]
    · rw [if_neg hlen, if_neg hlen]
  · exfalso
    rw [← hfun] at hid
    rw [if_neg (by simpa [beq_iff_eq] using h)] at hid
    exact h hid

/-! ## Claim theorems -/

/-- Claim C1: the reschedule conflict check is claimed to be the half-open
overlap test excluding the booking itself.  The query's chained `.or`
filters instead implement `(start <= newStart OR end >= newEnd) AND
(start < newEnd OR end > newStart)`, which both flags non-overlapping
bookings (an [08:00,09:00) booking blocks a reschedule to [14:00,15:00))
and misses genuine overlaps strictly inside the new interval (a
[14:15,14:45) booking does not block a reschedule to [14:00,15:00)). -/
theorem C1_reschedule_conflict_filter_broken :
    (rescheduleBooking [⟨1, 1, 60⟩]
        [⟨10, 5, 1, 1, none, 3, 600, 660, .confirmed⟩,
         ⟨11, 6, 1, 1, none, 3, 480, 540, .confirmed⟩] 5 10 3 840
        = .error .TIME_SLOT_CONFLICT ∧
      halfOpenOverlap 840 900 480 540 = false) ∧
    (rescheduleBooking [⟨1, 1, 60⟩]
        [⟨10, 5, 1, 1, none, 3, 600, 660, .confirmed⟩,
         ⟨12, 6, 1, 1, none, 3, 855, 885, .confirmed⟩] 5 10 3 840
        = .ok ⟨10, 5, 1, 1, none, 3, 840, 900, .pending⟩ ∧
      halfOpenOverlap 840 900 855 885 = true) :=
  ⟨⟨rfl, by decide⟩, ⟨rfl, by decide⟩⟩

/-- Claim C2 counterexample: an owner-initiated status update on a
reservation whose status is `completed` is not rejected — it succeeds and
overwrites the status, so terminal states are not absorbing. -/
theorem C2_counterexample :
    (updateBookingStatus [⟨1, 7⟩] []
        [⟨10, 5, 1, 1, none, 3, 600, 660, .completed⟩] 7 10 .pending).result
      = .ok ⟨10, 5, 1, 1, none, 3, 600, 660, .pending⟩ ∧
    (updateBookingStatus [⟨1, 7⟩] []
        [⟨10, 5, 1, 1, none, 3, 600, 660, .completed⟩] 7 10 .pending).bookings
      = [⟨10, 5, 1, 1, none, 3, 600, 660, .pending⟩] :=
  ⟨rfl, rfl⟩

/-- Claim C2 (amended): `updateBookingStatus` performs no current-status
check, so an owner-initiated update succeeds from every current status —
including `completed`, `cancelled` and `no_show` — and overwrites the
reservation's status with the requested target. -/
theorem C2_terminal_states_not_absorbing (salons : List Salon)
    (staffPairs : List (Nat × Nat)) (bookings : List Booking)
    (userId bookingId : Nat) (newStatus : Status) (booking : Booking) (salon : Salon)
    (hb : bookings.find? (fun b => b.id == bookingId) = some booking)
    (hs : salons.find? (fun s => s.id == booking.salon_id) = some salon)
    (howner : salon.owner_id = userId) :
    (updateBookingStatus salons staffPairs bookings userId bookingId newStatus).result
      = .ok { booking with status := newStatus } := by
  rw [updateBookingStatus_owner_spec salons staffPairs bookings userId bookingId
    newStatus booking salon hb hs howner]

/-- Claim C2 witness: concrete owner update out of `completed`. -/
theorem C2_witness :
    (updateBookingStatus [⟨1, 7⟩] []
        [⟨10, 5, 1, 1, none, 3, 600, 660, .completed⟩] 7 10 .confirmed).result
      = .ok ⟨10, 5, 1, 1, none, 3, 600, 660, .confirmed⟩ :=
  C2_terminal_states_not_absorbing [⟨1, 7⟩] []
    [⟨10, 5, 1, 1, none, 3, 600, 660, .completed⟩] 7 10 .confirmed
    ⟨10, 5, 1, 1, none, 3, 600, 660, .completed⟩ ⟨1, 7⟩ rfl rfl rfl

/-- Claim C3 counterexample: a creation with staff 1 requested is blocked by
an overlapping non-cancelled booking held by staff 2 at the same salon, so
the creation-time conflict check is not scoped to the requested resource. -/
theorem C3_counterexample :
    createBooking [⟨1, 1, 60⟩] [⟨1, 7⟩]
      [⟨11, 6, 1, 1, some 2, 3, 600, 660, .confirmed⟩]
      5 10 ⟨1, 1, some 1, 3, 600⟩ = .error .TIME_SLOT_CONFLICT := rfl

/-- Claim C3 (amended): creation-time conflict detection is always scoped to
the whole business: `TIME_SLOT_CONFLICT` is returned iff some non-cancelled
booking of the same salon on the date overlaps the new interval, regardless
of any staff id in the request or on the existing bookings. -/
theorem C3_creation_conflicts_business_wide (services : List Service)
    (salons : List Salon) (bookings : List Booking) (clientId newId : Nat)
    (req : CreateRequest) (service : Service)
    (hserv : services.find? (fun s => s.id == req.service_id) = some service)
    (hmatch : service.salon_id = req.salon_id)
    (hsalon : (salons.find? (fun s => s.id == req.salon_id)).isSome) :
    (createBooking services salons bookings clientId newId req
        = .error .TIME_SLOT_CONFLICT) ↔
      ∃ b ∈ bookings, b.salon_id = req.salon_id ∧
        b.appointment_date = req.appointment_date ∧ b.status ≠ Status.cancelled ∧
        b.start_time < req.start_time + service.duration ∧
        b.end_time > req.start_time := by
  rw [← any_createConflictWith_iff]
  obtain ⟨salon, hsal⟩ := Option.isSome_iff_exists.mp hsalon
  simp only [createBooking, hserv, hsal, hmatch, bne_self_eq_false, Bool.false_eq_true,
    if_false]
  by_cases hAny : bookings.any (createConflictWith req.salon_id req.appointment_date
      req.start_time (req.start_time + service.duration)) = true
  · simp [hAny]
  · simp [hAny]

/-- Claim C3 witness: the amended characterization applied at the concrete
cross-staff conflict. -/
theorem C3_witness :
    createBooking [⟨1, 1, 60⟩] [⟨1, 7⟩]
      [⟨11, 6, 1, 1, some 2, 3, 600, 660, .confirmed⟩]
      5 10 ⟨1, 1, some 1, 3, 600⟩ = .error .TIME_SLOT_CONFLICT :=
  (C3_creation_conflicts_business_wide [⟨1, 1, 60⟩] [⟨1, 7⟩]
      [⟨11, 6, 1, 1, some 2, 3, 600, 660, .confirmed⟩] 5 10 ⟨1, 1, some 1, 3, 600⟩
      ⟨1, 1, 60⟩ rfl rfl (by decide)).mpr
    ⟨⟨11, 6, 1, 1, some 2, 3, 600, 660, .confirmed⟩, by decide, rfl, rfl,
      by decide, by decide, by decide⟩

/-- Claim C4 counterexample: the 09:00-18:00 / 60-minute / 15-minute
scenario with no bookings yields 33 slots, not the claimed 37. -/
theorem C4_counterexample :
    (calculateAvailableSlots 540 1080 60 [] none).length = 33 ∧
    (calculateAvailableSlots 540 1080 60 [] none).length ≠ 37 :=
  ⟨by decide, by decide⟩

/-- Claim C4 (amended): for business hours 09:00-18:00, duration 60,
granularity 15 and no existing reservations, the walk emits first slot
09:00-10:00, last slot 17:00-18:00, and exactly 33 slots. -/
theorem C4_scenario_slot_walk :
    (calculateAvailableSlots 540 1080 60 [] none).head? = some ⟨540, 600⟩ ∧
    (calculateAvailableSlots 540 1080 60 [] none).getLast? = some ⟨1020, 1080⟩ ∧
    (calculateAvailableSlots 540 1080 60 [] none).length = 33 := by
  refine ⟨?_, ?_, ?_⟩ <;> decide

/-- Claim C5: intervals are half-open, so adjacency is never a conflict.
A candidate `[cur, cur+dur)` adjacent to every existing reservation is not
flagged by the availability loop's per-booking test, is not flagged by the
creation-time conflict query, and is emitted by the walk started at it. -/
theorem C5_half_open_adjacency (cur dur salonId date closeTime : Nat)
    (existing : List Interval) (bookings : List Booking)
    (hadj1 : ∀ iv ∈ existing, cur + dur = iv.start_time ∨ iv.end_time = cur)
    (hadj2 : ∀ b ∈ bookings, b.start_time = cur + dur ∨ b.end_time = cur) :
    slotHasConflict cur dur existing = false ∧
    bookings.any (createConflictWith salonId date cur (cur + dur)) = false ∧
    (cur + dur ≤ closeTime →
      (slotsFrom closeTime dur existing cur).head? = some ⟨cur, cur + dur⟩) := by
  have h1 : slotHasConflict cur dur existing = false := by
    rw [slotHasConflict, List.any_eq_false]
    intro iv hiv
    rcases hadj1 iv hiv with h | h
    · simp [slotOverlapsBooking, h]
    · simp [slotOverlapsBooking, h]
  refine ⟨h1, ?_, ?_⟩
  · rw [List.any_eq_false]
    intro b hbmem
    rcases hadj2 b hbmem with h | h
    · simp [createConflictWith, halfOpenOverlap, h]
    · simp [createConflictWith, halfOpenOverlap, h]
  · intro hle
    have hfuel : closeTime + 1 - cur = (closeTime - cur) + 1 := by omega
    rw [slotsFrom, hfuel]
    simp only [slotStep]
    rw [if_pos hle, if_neg (by simp [h1])]
    rfl

/-- Claim C5 witness: candidate [13:45,14:15) against existing [14:15,14:45)
is not a conflict anywhere. -/
theorem C5_witness :
    slotHasConflict 825 30 [⟨855, 885⟩] = false ∧
    [(⟨11, 6, 1, 1, none, 3, 855, 885, .confirmed⟩ : Booking)].any
        (createConflictWith 1 3 825 (825 + 30)) = false ∧
    (825 + 30 ≤ 1080 →
      (slotsFrom 1080 30 [⟨855, 885⟩] 825).head? = some ⟨825, 825 + 30⟩) :=
  C5_half_open_adjacency 825 30 1 3 1080 [⟨855, 885⟩]
    [⟨11, 6, 1, 1, none, 3, 855, 885, .confirmed⟩]
    (by decide) (by decide)

/-- Claim C6 counterexample: a booking created under duration 60 is
rescheduled after the service's duration changed to 30; the rescheduled
interval is 30 minutes long, so the creation-time duration is not preserved
across a reschedule. -/
theorem C6_counterexample :
    createBooking [⟨1, 1, 60⟩] [⟨1, 7⟩] [] 5 10 ⟨1, 1, none, 3, 600⟩
      = .ok ⟨10, 5, 1, 1, none, 3, 600, 660, .confirmed⟩ ∧
    rescheduleBooking [⟨1, 1, 30⟩] [⟨10, 5, 1, 1, none, 3, 600, 660, .confirmed⟩]
      5 10 3 720
      = .ok ⟨10, 5, 1, 1, none, 3, 720, 750, .pending⟩ :=
  ⟨rfl, rfl⟩

/-- Claim C6 (amended): creation freezes the interval in the stored row
(`end_time = start_time + duration` at creation time), but a reschedule
recomputes the end time from the service's duration as currently stored, so
a later duration change does affect a rescheduled reservation. -/
theorem C6_duration_frozen_until_reschedule :
    (∀ (services : List Service) (salons : List Salon) (bookings : List Booking)
        (clientId newId : Nat) (req : CreateRequest) (service : Service) (b : Booking),
      services.find? (fun s => s.id == req.service_id) = some service →
      createBooking services salons bookings clientId newId req = .ok b →
      b.end_time = b.start_time + service.duration) ∧
    (∀ (services : List Service) (bookings : List Booking)
        (userId bookingId newDate newStart : Nat) (booking : Booking)
        (service : Service) (b : Booking),
      bookings.find? (fun bk => bk.id == bookingId) = some booking →
      services.find? (fun s => s.id == booking.service_id) = some service →
      rescheduleBooking services bookings userId bookingId newDate newStart = .ok b →
      b.start_time = newStart ∧ b.end_time = newStart + service.duration) := by
  constructor
  · intro services salons bookings clientId newId req service b hserv hok
    rw [createBooking_ok_spec services salons bookings clientId newId req service b
      hserv hok]
  · intro services bookings userId bookingId newDate newStart booking service b
      hb hserv hok
    rw [rescheduleBooking_ok_spec services bookings userId bookingId newDate newStart
      booking service b hb hserv hok]
    exact ⟨rfl, rfl⟩

/-- Claim C6 witness: the reschedule part applied at the concrete
duration-change scenario. -/
theorem C6_witness :
    (⟨10, 5, 1, 1, none, 3, 720, 750, Status.pending⟩ : Booking).start_time = 720 ∧
    (⟨10, 5, 1, 1, none, 3, 720, 750, Status.pending⟩ : Booking).end_time = 720 + 30 :=
  C6_duration_frozen_until_reschedule.2 [⟨1, 1, 30⟩]
    [⟨10, 5, 1, 1, none, 3, 600, 660, .confirmed⟩] 5 10 3 720
    ⟨10, 5, 1, 1, none, 3, 600, 660, .confirmed⟩ ⟨1, 1, 30⟩
    ⟨10, 5, 1, 1, none, 3, 720, 750, .pending⟩ rfl rfl rfl

/-- Claim C7: a client who is not the salon's owner, targeting any status
other than `'cancelled'`, is rejected with the 403 error
`CLIENT_CAN_ONLY_CANCEL` and the store is left unchanged. -/
theorem C7_client_can_only_cancel (salons : List Salon)
    (staffPairs : List (Nat × Nat)) (bookings : List Booking)
    (userId bookingId : Nat) (newStatus : Status)
    (booking : Booking) (salon : Salon)
    (hb : bookings.find? (fun b => b.id == bookingId) = some booking)
    (hs : salons.find? (fun s => s.id == booking.salon_id) = some salon)
    (hclient : booking.client_id = userId)
    (hnotowner : salon.owner_id ≠ userId)
    (hstate : booking.status = Status.pending ∨ booking.status = Status.confirmed)
    (htarget : newStatus ≠ Status.cancelled) :
    (updateBookingStatus salons staffPairs bookings userId bookingId newStatus).result
        = .error .CLIENT_CAN_ONLY_CANCEL ∧
    (updateBookingStatus salons staffPairs bookings userId bookingId newStatus).bookings
        = bookings := by
  have h1 : (salon.owner_id == userId) = false := by simp [hnotowner]
  have h2 : (booking.client_id == userId) = true := by simp [hclient]
  have h3 : (newStatus == Status.cancelled) = false := by simp [htarget]
  have hres : updateBookingStatus salons staffPairs bookings userId bookingId newStatus
      = ⟨.error .CLIENT_CAN_ONLY_CANCEL, bookings, []⟩ := by
    simp [updateBookingStatus, hb, hs, h1, h2, h3]
  rw [hres]
  exact ⟨rfl, rfl⟩

/-- Claim C7 witness: a concrete client-initiated confirm from `pending` is
forbidden. -/
theorem C7_witness :
    (updateBookingStatus [⟨1, 7⟩] [] [⟨10, 5, 1, 1, none, 3, 600, 660, .pending⟩]
        5 10 .confirmed).result = .error .CLIENT_CAN_ONLY_CANCEL ∧
    (updateBookingStatus [⟨1, 7⟩] [] [⟨10, 5, 1, 1, none, 3, 600, 660, .pending⟩]
        5 10 .confirmed).bookings = [⟨10, 5, 1, 1, none, 3, 600, 660, .pending⟩] :=
  C7_client_can_only_cancel [⟨1, 7⟩] [] [⟨10, 5, 1, 1, none, 3, 600, 660, .pending⟩]
    5 10 .confirmed ⟨10, 5, 1, 1, none, 3, 600, 660, .pending⟩ ⟨1, 7⟩
    rfl rfl rfl (by decide) (Or.inl rfl) (by decide)

/-- Claim C8: an owner-initiated cancellation succeeds and invokes the
waitlist dispatcher exactly once with the cancelled booking's
`(salon_id, service_id, appointment_date, start_time)` tuple, and no
status update with a target other than `'cancelled'` ever dispatches. -/
theorem C8_cancel_dispatches_waitlist_once (salons : List Salon)
    (staffPairs : List (Nat × Nat)) (bookings : List Booking)
    (userId bookingId : Nat) (booking : Booking) (salon : Salon)
    (hb : bookings.find? (fun b => b.id == bookingId) = some booking)
    (hs : salons.find? (fun s => s.id == booking.salon_id) = some salon)
    (howner : salon.owner_id = userId) :
    ((updateBookingStatus salons staffPairs bookings userId bookingId .cancelled).result
        = .ok { booking with status := .cancelled } ∧
     (updateBookingStatus salons staffPairs bookings userId bookingId
        .cancelled).dispatches
        = [(booking.salon_id, booking.service_id, booking.appointment_date,
            booking.start_time)]) ∧
    ∀ (salons2 : List Salon) (staffPairs2 : List (Nat × Nat)) (bookings2 : List Booking)
      (userId2 bookingId2 : Nat) (newStatus : Status), newStatus ≠ Status.cancelled →
      (updateBookingStatus salons2 staffPairs2 bookings2 userId2 bookingId2
        newStatus).dispatches = [] := by
  constructor
  · rw [updateBookingStatus_owner_spec salons staffPairs bookings userId bookingId
      .cancelled booking salon hb hs howner]
    exact ⟨rfl, rfl⟩
  · intro salons2 staffPairs2 bookings2 userId2 bookingId2 newStatus hns
    exact updateBookingStatus_dispatches_nil salons2 staffPairs2 bookings2 userId2
      bookingId2 newStatus hns

/-- Claim C8 witness: a concrete owner cancellation from `pending`
dispatches once with the freed tuple. -/
theorem C8_witness :
    (updateBookingStatus [⟨1, 7⟩] [] [⟨10, 5, 1, 4, none, 3, 600, 660, .pending⟩]
        7 10 .cancelled).result = .ok ⟨10, 5, 1, 4, none, 3, 600, 660, .cancelled⟩ ∧
    (updateBookingStatus [⟨1, 7⟩] [] [⟨10, 5, 1, 4, none, 3, 600, 660, .pending⟩]
        7 10 .cancelled).dispatches = [(1, 4, 3, 600)] :=
  (C8_cancel_dispatches_waitlist_once [⟨1, 7⟩] []
    [⟨10, 5, 1, 4, none, 3, 600, 660, .pending⟩] 7 10
    ⟨10, 5, 1, 4, none, 3, 600, 660, .pending⟩ ⟨1, 7⟩ rfl rfl rfl).1

/-- Claim C9 counterexample: a request with `serviceDuration = 0` (a
non-positive duration) is not rejected: the availability walk emits 37
zero-length slots for 09:00-18:00, and `createBooking` creates a
reservation with `end_time = start_time`. -/
theorem C9_counterexample :
    (calculateAvailableSlots 540 1080 0 [] none).length = 37 ∧
    createBooking [⟨1, 1, 0⟩] [⟨1, 7⟩] [] 5 10 ⟨1, 1, none, 3, 600⟩
      = .ok ⟨10, 5, 1, 1, none, 3, 600, 600, .confirmed⟩ :=
  ⟨by decide, rfl⟩

/-- Claim C9 (amended): non-positive service durations are processed, not
rejected: a duration-0 creation that finds its service succeeds with a
zero-length interval, every slot the duration-0 walk emits is zero-length,
and the 09:00-18:00 walk emits 37 of them. -/
theorem C9_nonpositive_duration_processed :
    (∀ (services : List Service) (salons : List Salon) (bookings : List Booking)
        (clientId newId : Nat) (req : CreateRequest) (service : Service) (b : Booking),
      services.find? (fun s => s.id == req.service_id) = some service →
      service.duration = 0 →
      createBooking services salons bookings clientId newId req = .ok b →
      b.end_time = b.start_time) ∧
    (∀ (openTime closeTime : Nat) (existing : List Interval) (iv : Interval),
      iv ∈ calculateAvailableSlots openTime closeTime 0 existing none →
      iv.end_time = iv.start_time) ∧
    (calculateAvailableSlots 540 1080 0 [] none).length = 37 := by
  refine ⟨?_, ?_, by decide⟩
  · intro services salons bookings clientId newId req service b hserv hdur hok
    rw [createBooking_ok_spec services salons bookings clientId newId req service b
      hserv hok]
    simp [hdur]
  · intro openTime closeTime existing iv hmem
    have h0 := mem_slotStep_end_eq closeTime 0 existing (closeTime + 1 - openTime)
      openTime iv hmem
    simpa using h0

/-- Claim C9 witness: the duration-0 creation part at a concrete input. -/
theorem C9_witness :
    (⟨10, 5, 1, 1, none, 3, 600, 600, Status.confirmed⟩ : Booking).end_time
      = (⟨10, 5, 1, 1, none, 3, 600, 600, Status.confirmed⟩ : Booking).start_time :=
  C9_nonpositive_duration_processed.1 [⟨1, 1, 0⟩] [⟨1, 7⟩] [] 5 10 ⟨1, 1, none, 3, 600⟩
    ⟨1, 1, 0⟩ ⟨10, 5, 1, 1, none, 3, 600, 600, .confirmed⟩ rfl rfl rfl

/-- Claim C10: after every successful review create, update or soft-delete,
the affected salon's stored rating summary equals the spec's full recompute
over that salon's visible reviews; and for five visible reviews rated
[5,4,3,5,2] the projector stores `{average: 3.80, count: 5}`. -/
theorem C10_rating_projection :
    (∀ (bookings : List Booking) (st : ReviewStoreState)
        (clientId newId salonId : Nat) (bookingId : Option Nat) (rating now : Nat)
        (st2 : ReviewStoreState),
      createReview bookings st clientId newId salonId bookingId rating now = .ok st2 →
      storedSummaryMatches st2 salonId) ∧
    (∀ (st : ReviewStoreState) (clientId reviewId : Nat) (rating : Option Nat)
        (existing : Review) (st2 : ReviewStoreState),
      st.reviews.find? (fun r => (r.id == reviewId) && (r.client_id == clientId))
          = some existing →
      updateReview st clientId reviewId rating = .ok st2 →
      storedSummaryMatches st2 existing.salon_id) ∧
    (∀ (st : ReviewStoreState) (clientId reviewId : Nat)
        (existing : Review) (st2 : ReviewStoreState),
      st.reviews.find? (fun r => (r.id == reviewId) && (r.client_id == clientId))
          = some existing →
      deleteReview st clientId reviewId = .ok st2 →
      storedSummaryMatches st2 existing.salon_id) ∧
    ((updateSalonRating
        ⟨[⟨1, 5, 1, none, 5, true⟩, ⟨2, 5, 1, none, 4, true⟩, ⟨3, 5, 1, none, 3, true⟩,
          ⟨4, 5, 1, none, 5, true⟩, ⟨5, 5, 1, none, 2, true⟩],
         [⟨1, 0, 0⟩]⟩ 1).salons = [⟨1, 19/5, 5⟩] ∧
      (19/5 : ℚ) = 3.8) := by
  refine ⟨?_, ?_, ?_, ?_, by norm_num⟩
  · intro bookings st clientId newId salonId bookingId rating now st2 hok
    unfold createReview at hok
    split at hok
    · simp at hok
    · split at hok
      · simp at hok
      · split at hok
        · split at hok
          · simp at hok
          · split at hok
            · simp at hok
            · split at hok
              · simp at hok
              · split at hok
                · simp at hok
                · injection hok with h
                  rw [← h]
                  exact updateSalonRating_matches _ _
        · split at hok
          · injection hok with h
            rw [← h]
            exact updateSalonRating_matches _ _
          · simp at hok
  · intro st clientId reviewId rating existing st2 hfind hok
    simp only [updateReview, hfind] at hok
    split at hok
    · split at hok
      · simp at hok
      · injection hok with h
        rw [← h]
        exact updateSalonRating_matches _ _
    · injection hok with h
      rw [← h]
      exact updateSalonRating_matches _ _
  · intro st clientId reviewId existing st2 hfind hok
    simp only [deleteReview, hfind] at hok
    injection hok with h
    rw [← h]
    exact updateSalonRating_matches _ _
  · have hvr : visibleRatings
        [⟨1, 5, 1, none, 5, true⟩, ⟨2, 5, 1, none, 4, true⟩, ⟨3, 5, 1, none, 3, true⟩,
         ⟨4, 5, 1, none, 5, true⟩, ⟨5, 5, 1, none, 2, true⟩] 1 = [5, 4, 3, 5, 2] := rfl
    unfold updateSalonRating
    simp only [hvr]
    norm_num [round2, round_eq]

/-- Claim C10 witness: a concrete successful review creation whose resulting
stored summary matches the recompute. -/
theorem C10_witness :
    createReview [⟨20, 5, 1, 1, none, 3, 600, 660, .completed⟩]
        ⟨[], [⟨1, 0, 0⟩]⟩ 5 1 1 none 5 0
      = .ok ⟨[⟨1, 5, 1, none, 5, true⟩], [⟨1, 5, 1⟩]⟩ ∧
    storedSummaryMatches ⟨[⟨1, 5, 1, none, 5, true⟩], [⟨1, 5, 1⟩]⟩ 1 := by
  have h : createReview [⟨20, 5, 1, 1, none, 3, 600, 660, .completed⟩]
      ⟨[], [⟨1, 0, 0⟩]⟩ 5 1 1 none 5 0
      = .ok ⟨[⟨1, 5, 1, none, 5, true⟩], [⟨1, 5, 1⟩]⟩ := by
    simp [createReview, updateSalonRating, visibleRatings]
    norm_num [round2, round_eq]
  exact ⟨h, C10_rating_projection.1 [⟨20, 5, 1, 1, none, 3, 600, 660, .completed⟩]
    ⟨[], [⟨1, 0, 0⟩]⟩ 5 1 1 none 5 0 ⟨[⟨1, 5, 1, none, 5, true⟩], [⟨1, 5, 1⟩]⟩ h⟩

end SalonTime
